import Mathlib

/-!
Shallow embedding of the zadig workflow-task subsystem:
the freestyle job controller (`jobcontroller` package), the workflow task
materializer (`workflow_task_v4.go`) and the ingress getter
(`pkg/tool/kube/getter/ingress.go`).  External collaborators (step
controller, cluster clients, the mongo store, the workflow controller) are
modelled as effect oracles passed explicitly; machine state that Go mutates
in place is threaded as explicit record updates.
-/

namespace Zadig

/-- Go `strings.Join(elems, sep)`. -/
def stringsJoin : List String → String → String
  | [], _ => ""
  | [s], _ => s
  | s :: t :: rest, sep => s ++ sep ++ stringsJoin (t :: rest) sep

/-- Substring test on character lists: some tail of `s` starts with `sub`. -/
def listContainsSub (s sub : List Char) : Bool :=
  s.tails.any (fun t => sub.isPrefixOf t)

/-- Go `strings.Contains(s, sub)`. -/
def goContains (s sub : String) : Bool :=
  listContainsSub s.data sub.data

/-- Replace the first occurrence of `old` in the character list by `new`;
the list is returned unchanged when `old` does not occur.  An empty `old`
matches at the start of the list, as in Go. -/
def replaceFirstAux (old new : List Char) : List Char → List Char
  | [] => if old.isPrefixOf ([] : List Char) then new else []
  | c :: rest =>
    if old.isPrefixOf (c :: rest) then new ++ (c :: rest).drop old.length
    else c :: replaceFirstAux old new rest

/-- Go `strings.Replace(s, old, new, 1)`. -/
def goReplace1 (s old new : String) : String :=
  String.mk (replaceFirstAux old.data new.data s.data)

/-- Constant `DindServer` from the jobcontroller package. -/
def DindServer : String := "dind"

/-- Constant `KoderoverAgentNamespace` from the jobcontroller package. -/
def KoderoverAgentNamespace : String := "koderover-agent"

/-- Modelled from the spec: `setting.LocalClusterID`, the special cluster id
denoting the in-process ("local") cluster; the constant's definition is not
under src/.  Its concrete value is immaterial to the claims. -/
def LocalClusterID : String := "0"

/-- Modelled from the spec: `setting.AttachedClusterNamespace`; spec §6 says
remote-cluster jobs run in `koderover-agent`. -/
def AttachedClusterNamespace : String := "koderover-agent"

/-- Modelled from the spec: `setting.MinRequest`, the default resource
request ("Resource request default value is LOW" per the source comment);
the constant's definition is not under src/. -/
def MinRequest : String := "min"

/-- Job/stage/task status (`config.Status` is a string in Go; only the
values the embedded code uses are modelled). -/
inductive Status where
  | created
  | running
  | passed
  | failed
  | cancelled
  | timeout
  | reject
  | queued
  | waitingApproval
deriving DecidableEq, Repr

/-- `commonmodels.KeyVal`. -/
structure KeyVal where
  key : String
  value : String
  is_credential : Bool
deriving DecidableEq, Repr

/-- `commonmodels.Output` (an output declaration on a job). -/
structure Output where
  name : String
  description : String
deriving DecidableEq, Repr

/-- A `name: value` pair parsed from the pod termination message
(`getJobOutput` result element). -/
structure JobOutput where
  name : String
  value : String
deriving DecidableEq, Repr

/-- `commonmodels.Step` (the `spec` payload is opaque to the controller and
represented by a string stand-in). -/
structure Step where
  name : String
  timeout : Int
  step_type : String
  spec : String
deriving DecidableEq, Repr

/-- The fields of `commonmodels.JobProperties` the embedded code reads or
writes. -/
structure JobProperties where
  timeout : Int
  retry : Int
  resource_request : String
  cluster_id : String
  build_os : String
  image_from : String
  nameSpace : String
  envs : List KeyVal
  paths : String
  docker_host : String
deriving DecidableEq, Repr

/-- `commonmodels.JobTask`: the per-job runtime record. -/
structure JobTask where
  name : String
  job_type : String
  status : Status
  error : String
  start_time : Int
  end_time : Int
  outputs : List Output
deriving DecidableEq, Repr

/-- `commonmodels.JobTaskBuildSpec` (the decoded `job.Spec` of a freestyle
job). -/
structure JobTaskBuildSpec where
  properties : JobProperties
  steps : List Step
deriving DecidableEq, Repr

/-- `commonmodels.WorkflowTaskCtx`: the shared per-task context, holding the
variable context (`global_context`). -/
structure WorkflowTaskCtx where
  workflow_name : String
  task_id : Int
  workspace : String
  global_context : List (String × String)
deriving DecidableEq, Repr

/-- Modelled from the spec: `WorkflowTaskCtx.GlobalContextSet` (defined
outside src/) writes `key → value` into the mutex-guarded variable-context
map: an existing binding for `key` is overwritten, otherwise the binding is
added. -/
def globalContextSet (g : List (String × String)) (key value : String) :
    List (String × String) :=
  if g.any (fun p => p.1 = key) then
    g.map (fun p => if p.1 = key then (key, value) else p)
  else
    g ++ [(key, value)]

/-- `JobContext`: the executor input document built by
`BuildJobExcutorContext`. -/
structure JobContext where
  name : String
  envs : List String
  secret_envs : List String
  workflow_name : String
  workspace : String
  task_id : Int
  outputs : List String
  steps : List Step
  paths : String
deriving DecidableEq, Repr

/-- `BuildJobExcutorContext` from the jobcontroller package: partitions the
job env list into plaintext and credential `KEY=VALUE` strings, projects the
declared output names, and copies the remaining fields. -/
def BuildJobExcutorContext (jobTaskSpec : JobTaskBuildSpec) (job : JobTask)
    (workflowCtx : WorkflowTaskCtx) : JobContext :=
  let envLists := jobTaskSpec.properties.envs.foldl
    (fun acc env =>
      if env.is_credential then
        (acc.1, acc.2 ++ [stringsJoin [env.key, env.value] "="])
      else
        (acc.1 ++ [stringsJoin [env.key, env.value] "="], acc.2))
    (([] : List String), ([] : List String))
  let outputs := job.outputs.foldl (fun acc output => acc ++ [output.name])
    ([] : List String)
  { name := job.name
    envs := envLists.1
    secret_envs := envLists.2
    workflow_name := workflowCtx.workflow_name
    workspace := workflowCtx.workspace
    task_id := workflowCtx.task_id
    outputs := outputs
    steps := jobTaskSpec.steps
    paths := jobTaskSpec.properties.paths }

/-- The docker-host namespace rewrite block inside `FreestyleJobCtl.run`.
`processNamespace` stands for `config.Namespace()`; `hostIn` is the value of
`Properties.DockerHost` after `GetBestHost`; the result is the value the
code assigns back to `Properties.DockerHost` (note the `dockerHost`
variable starts as the empty string and keeps it on the branch that makes no
assignment). -/
def rewriteDockerHost (clusterID processNamespace hostIn : String) : String :=
  let replaceDindServer : String := "." ++ DindServer
  if clusterID ≠ "" ∧ clusterID ≠ LocalClusterID then
    if goContains hostIn processNamespace then
      goReplace1 hostIn processNamespace KoderoverAgentNamespace
    else
      goReplace1 hostIn replaceDindServer
        (replaceDindServer ++ "." ++ KoderoverAgentNamespace)
  else if clusterID = "" ∨ clusterID = LocalClusterID then
    if !(goContains hostIn processNamespace) then
      goReplace1 hostIn replaceDindServer
        (replaceDindServer ++ "." ++ processNamespace)
    else ""
  else ""

/-- The outcomes of every external call the freestyle controller makes,
passed as an oracle: `none` means the Go call returned a nil error, `some
msg` an error whose `Error()` is `msg`. -/
structure Effects where
  prepareStepsErr : Option String
  prepareStepsPaths : String
  getK8sClientsErr : Option String
  bestHost : String
  processNamespace : String
  yamlMarshalErr : Option String
  ensureDeleteConfigMapErr : Option String
  createJobConfigMapErr : Option String
  buildJobErr : Option String
  ensureDeleteJobErr : Option String
  createJobErr : Option String
  waitStatus : Status
  getJobOutput : Except String (List JobOutput)
  saveContainerLogErr : Option String
  summarizeStepsErr : Option String
  nowUnix : Int
deriving Repr

/-- The mutable state of a `FreestyleJobCtl` that the phases read and
write. -/
structure FreestyleJobCtl where
  job : JobTask
  jobTaskSpec : JobTaskBuildSpec
  workflowCtx : WorkflowTaskCtx
deriving DecidableEq, Repr

/-- Replace the controller's `jobTaskSpec.Properties`. -/
def FreestyleJobCtl.setProps (c : FreestyleJobCtl) (p : JobProperties) :
    FreestyleJobCtl :=
  { c with jobTaskSpec := { c.jobTaskSpec with properties := p } }

/-- The common failure pattern `c.job.Status = StatusFailed; c.job.Error =
msg; return err`. -/
def FreestyleJobCtl.failJob (c : FreestyleJobCtl) (msg : String) :
    FreestyleJobCtl × Option String :=
  ({ c with job := { c.job with status := Status.failed, error := msg } },
   some msg)

/-- `FreestyleJobCtl.prepare`: apply the defaults for timeout, resource
request and cluster id, then run step preparation; a step-preparation error
marks the job failed and is returned. -/
def FreestyleJobCtl.prepare (c : FreestyleJobCtl) (eff : Effects) :
    FreestyleJobCtl × Option String :=
  let props := c.jobTaskSpec.properties
  let props := if props.timeout ≤ 0 then { props with timeout := 600 } else props
  let props :=
    if props.resource_request = "" then { props with resource_request := MinRequest }
    else props
  let props :=
    if props.cluster_id = "" then { props with cluster_id := LocalClusterID }
    else props
  let c := c.setProps props
  match eff.prepareStepsErr with
  | some msg =>
    ({ c with job := { c.job with error := msg, status := Status.failed } },
     some msg)
  | none =>
    (c.setProps { props with paths := eff.prepareStepsPaths }, none)

/-- The tail of `FreestyleJobCtl.run` after cluster clients are resolved:
docker-host selection and rewrite, job-context marshalling, configmap and
workload create-after-delete.  Every failure marks the job failed with the
formatted message from the source. -/
def FreestyleJobCtl.runAfterClients (c : FreestyleJobCtl) (eff : Effects) :
    FreestyleJobCtl × Option String :=
  let props := c.jobTaskSpec.properties
  let props := { props with docker_host := eff.bestHost }
  let props :=
    { props with docker_host :=
        rewriteDockerHost props.cluster_id eff.processNamespace props.docker_host }
  let c := c.setProps props
  match eff.yamlMarshalErr with
  | some e => c.failJob ("cannot Jobexcutor.Context data: " ++ e)
  | none =>
  match eff.ensureDeleteConfigMapErr with
  | some e => c.failJob e
  | none =>
  match eff.createJobConfigMapErr with
  | some e => c.failJob ("createJobConfigMap error: " ++ e)
  | none =>
  match eff.buildJobErr with
  | some e => c.failJob ("create job context error: " ++ e)
  | none =>
  match eff.ensureDeleteJobErr with
  | some e => c.failJob ("delete job error: " ++ e)
  | none =>
  match eff.createJobErr with
  | some e => c.failJob ("create job error: " ++ e)
  | none => (c, none)

/-- `FreestyleJobCtl.run`: resolve clients and namespace by cluster id
(the `switch` sends every non-local id to the remote branch), then continue
with `runAfterClients`. -/
def FreestyleJobCtl.run (c : FreestyleJobCtl) (eff : Effects) :
    FreestyleJobCtl × Option String :=
  if c.jobTaskSpec.properties.cluster_id = LocalClusterID then
    let c := c.setProps
      { c.jobTaskSpec.properties with nameSpace := eff.processNamespace }
    c.runAfterClients eff
  else
    let c := c.setProps
      { c.jobTaskSpec.properties with nameSpace := AttachedClusterNamespace }
    match eff.getK8sClientsErr with
    | some msg =>
      let failedJob :=
        { c.job with status := Status.failed, error := msg, end_time := eff.nowUnix }
      ({ c with job := failedJob }, some msg)
    | none => c.runAfterClients eff

/-- `FreestyleJobCtl.wait`: the job status becomes the result of
`waitJobEndWithFile`. -/
def FreestyleJobCtl.wait (c : FreestyleJobCtl) (eff : Effects) :
    FreestyleJobCtl :=
  { c with job := { c.job with status := eff.waitStatus } }

/-- What the `complete` phase did besides updating state: whether
`SummarizeSteps` was invoked, and that the deferred deletion of the job's
workload and configmap was scheduled. -/
structure CompleteTrace where
  summarizeStepsCalled : Bool
  cleanupScheduled : Bool
deriving DecidableEq, Repr

/-- The output-writing loop of `complete`: one `GlobalContextSet` per parsed
output, with key `strings.Join({"workflow", jobName, output.Name}, ".")`. -/
def writeOutputs (jobName : String) (outputs : List JobOutput)
    (g : List (String × String)) : List (String × String) :=
  outputs.foldl
    (fun acc output =>
      globalContextSet acc (stringsJoin ["workflow", jobName, output.name] ".")
        output.value)
    g

/-- `FreestyleJobCtl.complete`: read outputs from the pod termination
message (an error is recorded but does not stop the phase), write them into
the variable context, ship container logs (an error records `job.Error` and
returns early), then summarize steps.  The deferred cleanup is scheduled on
every path. -/
def FreestyleJobCtl.complete (c : FreestyleJobCtl) (eff : Effects) :
    FreestyleJobCtl × CompleteTrace :=
  let (c1, outputs) :=
    match eff.getJobOutput with
    | Except.error e =>
      ({ c with job := { c.job with error := e } }, ([] : List JobOutput))
    | Except.ok outs => (c, outs)
  let c2 := { c1 with workflowCtx := { c1.workflowCtx with
    global_context :=
      writeOutputs c1.job.name outputs c1.workflowCtx.global_context } }
  match eff.saveContainerLogErr with
  | some e =>
    ({ c2 with job := { c2.job with error := e } },
     { summarizeStepsCalled := false, cleanupScheduled := true })
  | none =>
    match eff.summarizeStepsErr with
    | some e =>
      ({ c2 with job := { c2.job with error := e } },
       { summarizeStepsCalled := true, cleanupScheduled := true })
    | none =>
      (c2, { summarizeStepsCalled := true, cleanupScheduled := true })

/-- The four phases of a freestyle job execution. -/
inductive Phase where
  | prepare
  | run
  | wait
  | complete
deriving DecidableEq, Repr

/-- `FreestyleJobCtl.Run`: prepare, then run, then wait and complete; an
error from `prepare` or `run` returns immediately.  The second component
lists the phases that executed, in order. -/
def FreestyleJobCtl.Run (c : FreestyleJobCtl) (eff : Effects) :
    FreestyleJobCtl × List Phase :=
  match c.prepare eff with
  | (c1, some _) => (c1, [Phase.prepare])
  | (c1, none) =>
    match c1.run eff with
    | (c2, some _) => (c2, [Phase.prepare, Phase.run])
    | (c2, none) =>
      let c3 := c2.wait eff
      let (c4, _) := c3.complete eff
      (c4, [Phase.prepare, Phase.run, Phase.wait, Phase.complete])

/-- `config.JobZadigBuild` (a string constant; its value does not influence
the claims). -/
def JobZadigBuild : String := "zadig-build"

/-- `config.JobFreestyle` (a string constant; its value does not influence
the claims). -/
def JobFreestyle : String := "freestyle"

/-- `commonmodels.Job`: a job of the workflow definition.  The `Spec`
envelope is represented by a string stand-in that the preparation oracles
may rewrite, as `setZadigBuildRepos`/`setFreeStyleRepos` do in Go. -/
structure Job where
  name : String
  job_type : String
  skipped : Bool
  spec : String
deriving DecidableEq, Repr

/-- `commonmodels.WorkflowStage` (the approval payload is not read by the
embedded code paths). -/
structure WorkflowStage where
  name : String
  parallel : Bool
  jobs : List Job
deriving DecidableEq, Repr

/-- `commonmodels.WorkflowV4`: the workflow definition document.  `params`
entries are opaque payloads represented by strings. -/
structure WorkflowV4 where
  name : String
  project : String
  params : List String
  key_vals : List KeyVal
  stages : List WorkflowStage
  multi_run : Bool
deriving DecidableEq, Repr

/-- `commonmodels.StageTask`. -/
structure StageTask where
  name : String
  parallel : Bool
  jobs : List JobTask
deriving DecidableEq, Repr

/-- `commonmodels.WorkflowTask`: the persisted task document.  The two
workflow-args pointers are `Option` (nil until assigned). -/
structure WorkflowTask where
  task_id : Int
  workflow_name : String
  project_name : String
  task_creator : String
  task_revoker : String
  create_time : Int
  params : List String
  key_vals : List KeyVal
  multi_run : Bool
  stages : List StageTask
  workflow_args : Option WorkflowV4
  origin_workflow_args : Option WorkflowV4
  status : Status
deriving DecidableEq, Repr

/-- `CreateTaskV4Resp`. -/
structure CreateTaskV4Resp where
  project_name : String
  workflow_name : String
  task_id : Int
deriving DecidableEq, Repr

/-- The error values of `pkg/tool/errors` used by the embedded service
functions, each carrying the description attached by `AddDesc`/`AddErr`. -/
inductive ZadigErr where
  | errFindWorkflow (desc : String)
  | errGetCounter (desc : String)
  | errCreateTask (desc : String)
  | errGetTask (desc : String)
  | errApproveTask (desc : String)
  | errCancelTask (desc : String)
deriving DecidableEq, Repr

/-- The external collaborators of `CreateWorkflowTaskV4`, as an oracle.
`lintWorkflow` is the result of `LintWorkflowV4` (its error is returned
verbatim); `itoiErr` is a failure of the `IToi` deep copy, which on success
copies the value; the remaining fields model the jobctl helpers and the
counter. -/
structure MatEffects where
  lintWorkflow : Option ZadigErr
  itoiErr : Option String
  getNextSeq : Except String Int
  removeFixedValueMarks : WorkflowV4 → Except String WorkflowV4
  renderGlobalVariables : WorkflowV4 → Int → String → Except String WorkflowV4
  setZadigBuildRepos : Job → Except String Job
  setFreeStyleRepos : Job → Except String Job
  toJobs : Job → WorkflowV4 → Int → Except String (List JobTask)
  createTaskErr : Option String
  nowUnix : Int

/-- The per-job type-specific preparation inside the conversion loop:
`setZadigBuildRepos` for zadig-build jobs, `setFreeStyleRepos` for
freestyle jobs, otherwise the job is untouched. -/
def prepJob (eff : MatEffects) (job : Job) : Except String Job :=
  if job.job_type = JobZadigBuild then eff.setZadigBuildRepos job
  else if job.job_type = JobFreestyle then eff.setFreeStyleRepos job
  else Except.ok job

/-- The inner loop of the stage conversion in `CreateWorkflowTaskV4`:
skipped jobs are passed over, each remaining job is prepared and converted
by `ToJobs`, and the produced `JobTask` lists are appended in order.  The
first error aborts the loop. -/
def convertStageJobs (eff : MatEffects) (workflow : WorkflowV4)
    (taskID : Int) : List Job → Except String (List JobTask)
  | [] => Except.ok []
  | job :: rest =>
    if job.skipped then convertStageJobs eff workflow taskID rest
    else
      match prepJob eff job with
      | Except.error e => Except.error e
      | Except.ok job2 =>
        match eff.toJobs job2 workflow taskID with
        | Except.error e => Except.error e
        | Except.ok jobs =>
          match convertStageJobs eff workflow taskID rest with
          | Except.error e => Except.error e
          | Except.ok restJobs => Except.ok (jobs ++ restJobs)

/-- The outer loop of the stage conversion: each stage becomes a
`StageTask`; a stage whose resulting job list is empty is dropped. -/
def convertStages (eff : MatEffects) (workflow : WorkflowV4) (taskID : Int) :
    List WorkflowStage → Except String (List StageTask)
  | [] => Except.ok []
  | stage :: rest =>
    match convertStageJobs eff workflow taskID stage.jobs with
    | Except.error e => Except.error e
    | Except.ok jobs =>
      match convertStages eff workflow taskID rest with
      | Except.error e => Except.error e
      | Except.ok restStages =>
        if jobs.length > 0 then
          let stageTask : StageTask :=
            { name := stage.name, parallel := stage.parallel, jobs := jobs }
          Except.ok (stageTask :: restStages)
        else Except.ok restStages

/-- `workflowTaskLint`: reject a task with no stage, or with a stage that
has no job, with `ErrCreateTask` and the formatted message from the
source. -/
def workflowTaskLint (workflowTask : WorkflowTask) : Option ZadigErr :=
  if workflowTask.stages.length ≤ 0 then
    some (ZadigErr.errCreateTask
      ("no stage found in workflow task: " ++ workflowTask.workflow_name ++
        ",taskID: " ++ toString workflowTask.task_id))
  else
    match workflowTask.stages.find? (fun s => decide (s.jobs.length ≤ 0)) with
    | some stage =>
      some (ZadigErr.errCreateTask
        ("no job found in workflow task: " ++ workflowTask.workflow_name ++
          ",taskID: " ++ toString workflowTask.task_id ++ ",stage: " ++
          stage.name))
    | none => none

/-- The body of `CreateWorkflowTaskV4` up to (and including) the
`workflowcontroller.CreateTask` call, returning the response and the task
document that was persisted.  Mutations of the workflow pointer by the
render/marker helpers are threaded as the successive documents `w1`, `w2`;
the deep-copied `originTaskArgs` is captured before them.  (The in-place
job-spec updates made by the preparation helpers inside the conversion loop
only affect the `workflow_args` snapshot, which no claim inspects; the
post-render document is used for it.) -/
def createWorkflowTaskV4Aux (eff : MatEffects) (user : String)
    (workflow : WorkflowV4) : Except ZadigErr (CreateTaskV4Resp × WorkflowTask) :=
  let resp : CreateTaskV4Resp :=
    { project_name := workflow.project, workflow_name := workflow.name,
      task_id := 0 }
  match eff.lintWorkflow with
  | some e => Except.error e
  | none =>
  match eff.itoiErr with
  | some e => Except.error (ZadigErr.errCreateTask e)
  | none =>
  let originTaskArgs := workflow
  match eff.getNextSeq with
  | Except.error e => Except.error (ZadigErr.errGetCounter e)
  | Except.ok nextTaskID =>
  match eff.removeFixedValueMarks workflow with
  | Except.error e => Except.error (ZadigErr.errCreateTask e)
  | Except.ok w1 =>
  match eff.renderGlobalVariables w1 nextTaskID user with
  | Except.error e => Except.error (ZadigErr.errCreateTask e)
  | Except.ok w2 =>
  match convertStages eff w2 nextTaskID w2.stages with
  | Except.error e => Except.error (ZadigErr.errCreateTask e)
  | Except.ok stages =>
  let workflowTask : WorkflowTask :=
    { task_id := nextTaskID
      workflow_name := w2.name
      project_name := w2.project
      task_creator := user
      task_revoker := user
      create_time := eff.nowUnix
      params := w2.params
      key_vals := w2.key_vals
      multi_run := w2.multi_run
      stages := stages
      workflow_args := some w2
      origin_workflow_args := some originTaskArgs
      status := Status.created }
  match workflowTaskLint workflowTask with
  | some e => Except.error e
  | none =>
  match eff.createTaskErr with
  | some e => Except.error (ZadigErr.errCreateTask e)
  | none => Except.ok ({ resp with task_id := nextTaskID }, workflowTask)

/-- The task store (`workflowTaskv4Coll`), holding the persisted task
documents in insertion order. -/
structure Store where
  tasks : List WorkflowTask
deriving Repr

/-- `CreateWorkflowTaskV4` at the store level: the aux body either fails
(leaving the store untouched — every error return happens before or instead
of persistence) or appends the persisted task. -/
def CreateWorkflowTaskV4 (eff : MatEffects) (user : String)
    (workflow : WorkflowV4) (store : Store) :
    Except ZadigErr CreateTaskV4Resp × Store :=
  match createWorkflowTaskV4Aux eff user workflow with
  | Except.error e => (Except.error e, store)
  | Except.ok (resp, task) =>
    (Except.ok resp, { tasks := store.tasks ++ [task] })

/-- `workflowTaskv4Coll.Find(workflowName, taskID)`: the first stored task
with the given key. -/
def findTask (store : Store) (workflowName : String) (taskID : Int) :
    Option WorkflowTask :=
  store.tasks.find?
    (fun t => t.workflow_name == workflowName && t.task_id == taskID)

/-- `CloneWorkflowTaskV4`: look the task up and return its
`OriginWorkflowArgs` pointer. -/
def CloneWorkflowTaskV4 (store : Store) (workflowName : String)
    (taskID : Int) : Except ZadigErr (Option WorkflowV4) :=
  match findTask store workflowName taskID with
  | none => Except.error (ZadigErr.errGetTask "task not found")
  | some task => Except.ok task.origin_workflow_args

/-- `ApproveStage`: reject empty workflow/stage names and task id 0 with
`ErrApproveTask` before touching the workflow controller (whose result is
the oracle argument); a controller error is wrapped in `ErrApproveTask`.
The boolean records whether the controller was invoked. -/
def ApproveStage (controllerApproveErr : Option String)
    (workflowName stageName userName userID comment : String) (taskID : Int)
    (approve : Bool) : Except ZadigErr Unit × Bool :=
  if workflowName = "" ∨ stageName = "" ∨ taskID = 0 then
    (Except.error (ZadigErr.errApproveTask
      ("can not find approved workflow: " ++ workflowName ++ ", taskID: " ++
        toString taskID ++ ",stage: " ++ stageName)), false)
  else
    match controllerApproveErr with
    | some e => (Except.error (ZadigErr.errApproveTask e), true)
    | none => (Except.ok (), true)

/-- `schema.GroupVersionKind`. -/
structure GroupVersionKind where
  group : String
  kind : String
  version : String
deriving DecidableEq, Repr

/-- An ingress resource (only identity matters to the claim). -/
structure Ingress where
  name : String
deriving DecidableEq, Repr

/-- `extensions.IngressList`: the typed list `ListIngressesFormat` allocates
and reads. -/
structure IngressList where
  items : List Ingress
deriving DecidableEq, Repr

/-- The `extensions/v1beta1` Ingress group-version-kind. -/
def extensionsV1beta1IngressGVK : GroupVersionKind :=
  { group := "extensions", kind := "Ingress", version := "v1beta1" }

/-- The `networking.k8s.io/v1` Ingress group-version-kind. -/
def networkingV1IngressGVK : GroupVersionKind :=
  { group := "networking.k8s.io", kind := "Ingress", version := "v1" }

/-- `ListIngressesFormat`: allocate an empty typed `IngressList` `l` and an
unstructured list `u`; list the cache into `u` (the oracle supplies the
items the cache writes into it, or the list error); then build the result
from `l.Items` — which the list call never populated. -/
def ListIngressesFormat
    (listResourceInCache : String → GroupVersionKind → Except String (List Ingress))
    (ns : String) (lessThan122 : Bool) : Except String (List Ingress) :=
  let l : IngressList := { items := [] }
  let gvk :=
    if !lessThan122 then networkingV1IngressGVK else extensionsV1beta1IngressGVK
  match listResourceInCache ns gvk with
  | Except.error e => Except.error e
  | Except.ok _ =>
    Except.ok (l.items.foldl (fun acc item => acc ++ [item]) ([] : List Ingress))

/-! Concrete fixtures used by counterexamples and witnesses. -/

/-- A freestyle job's properties before `prepare` applies defaults. -/
def sampleProperties : JobProperties :=
  { timeout := 0, retry := 0, resource_request := "", cluster_id := "",
    build_os := "focal", image_from := "", nameSpace := "", envs := [],
    paths := "", docker_host := "" }

/-- A freestyle job task named `build`. -/
def sampleJob : JobTask :=
  { name := "build", job_type := "freestyle", status := Status.created,
    error := "", start_time := 0, end_time := 0,
    outputs := [{ name := "VERSION", description := "" }] }

/-- A freestyle controller for job `build` of workflow `wf`, task 1. -/
def sampleCtl : FreestyleJobCtl :=
  { job := sampleJob
    jobTaskSpec := { properties := sampleProperties, steps := [] }
    workflowCtx :=
      { workflow_name := "wf", task_id := 1, workspace := "/workspace",
        global_context := [] } }

/-- Effects where every external call of the freestyle controller
succeeds. -/
def baseEffects : Effects :=
  { prepareStepsErr := none, prepareStepsPaths := "",
    getK8sClientsErr := none, bestHost := "tcp://dind-0.dind:2375",
    processNamespace := "zadig", yamlMarshalErr := none,
    ensureDeleteConfigMapErr := none, createJobConfigMapErr := none,
    buildJobErr := none, ensureDeleteJobErr := none, createJobErr := none,
    waitStatus := Status.passed, getJobOutput := Except.ok [],
    saveContainerLogErr := none, summarizeStepsErr := none,
    nowUnix := 1700000000 }

/-- Effects where step preparation fails. -/
def effPrepFail : Effects :=
  { baseEffects with prepareStepsErr := some "prepare steps failed" }

/-- Effects where shipping container logs fails. -/
def effLogFail : Effects :=
  { baseEffects with saveContainerLogErr := some "ship logs failed" }

/-- A `VERSION: 1.2.3` output parsed from the termination message. -/
def out0 : JobOutput := { name := "VERSION", value := "1.2.3" }

/-- Effects where the pod termination message yields one output. -/
def effOut : Effects := { baseEffects with getJobOutput := Except.ok [out0] }

/-- A non-skipped definition job of a type without extra preparation. -/
def job0 : Job :=
  { name := "build", job_type := "plugin", skipped := false, spec := "spec0" }

/-- A skipped definition job. -/
def skippedJob : Job :=
  { name := "ignored", job_type := "plugin", skipped := true, spec := "s" }

/-- A one-job stage. -/
def stage0 : WorkflowStage :=
  { name := "stage1", parallel := false, jobs := [job0] }

/-- A one-stage workflow definition. -/
def wf0 : WorkflowV4 :=
  { name := "wf", project := "proj", params := ["p1"],
    key_vals := [{ key := "K", value := "V", is_credential := false }],
    stages := [stage0], multi_run := false }

/-- The job task produced for `job0` by the conversion oracle below. -/
def jobTask0 : JobTask :=
  { name := "build", job_type := "plugin", status := Status.created,
    error := "", start_time := 0, end_time := 0, outputs := [] }

/-- Materializer effects where every step succeeds and `ToJobs` yields one
job task. -/
def matEff0 : MatEffects :=
  { lintWorkflow := none, itoiErr := none, getNextSeq := Except.ok 7,
    removeFixedValueMarks := fun w => Except.ok w,
    renderGlobalVariables := fun w _ _ => Except.ok w,
    setZadigBuildRepos := fun j => Except.ok j,
    setFreeStyleRepos := fun j => Except.ok j,
    toJobs := fun _ _ _ => Except.ok [jobTask0],
    createTaskErr := none, nowUnix := 1700000000 }

/-- Materializer effects where the task-id counter fails. -/
def matEffCounterFail : MatEffects :=
  { matEff0 with getNextSeq := Except.error "counter unavailable" }

/-- Materializer effects where `ToJobs` fails. -/
def matEffToJobsFail : MatEffects :=
  { matEff0 with toJobs := fun _ _ _ => Except.error "bad job spec" }

/-- The stage task that `convertStages matEff0 wf0 7` produces for
`stage0`. -/
def stageTask0 : StageTask :=
  { name := "stage1", parallel := false, jobs := [jobTask0] }

/-- The empty task store. -/
def store0 : Store := { tasks := [] }

/-- A well-formed persisted task (used to exercise `workflowTaskLint`). -/
def task0 : WorkflowTask :=
  { task_id := 7, workflow_name := "wf", project_name := "proj",
    task_creator := "alice", task_revoker := "alice",
    create_time := 1700000000, params := ["p1"], key_vals := [],
    multi_run := false, stages := [stageTask0], workflow_args := some wf0,
    origin_workflow_args := some wf0, status := Status.created }

/-- A cache-list oracle that returns one ingress for every query. -/
def listOneIngress : String → GroupVersionKind → Except String (List Ingress) :=
  fun _ _ => Except.ok [{ name := "ing1" }]

/-- A freestyle controller on the local cluster (after `prepare` has
defaulted the cluster id). -/
def sampleCtlLocal : FreestyleJobCtl :=
  sampleCtl.setProps { sampleProperties with cluster_id := LocalClusterID }

/-- Effects whose best docker host already contains the process
namespace. -/
def effHostContainsNs : Effects :=
  { baseEffects with bestHost := "tcp://dind-0.dind.zadig:2375" }

/-- The fallback task value used by `persistedTask` on the error path (never
reached when materialization succeeds). -/
def emptyWorkflowTask : WorkflowTask :=
  { task_id := 0, workflow_name := "", project_name := "", task_creator := "",
    task_revoker := "", create_time := 0, params := [], key_vals := [],
    multi_run := false, stages := [], workflow_args := none,
    origin_workflow_args := none, status := Status.created }

/-- The task document `CreateWorkflowTaskV4` persists on success
(an observer over the aux body). -/
def persistedTask (eff : MatEffects) (user : String) (w : WorkflowV4) :
    WorkflowTask :=
  match createWorkflowTaskV4Aux eff user w with
  | Except.ok (_, t) => t
  | Except.error _ => emptyWorkflowTask

/-- The response `CreateWorkflowTaskV4 matEff0 "alice" wf0` produces. -/
def resp0 : CreateTaskV4Resp :=
  { project_name := "proj", workflow_name := "wf", task_id := 7 }

/-! Helper lemmas. -/

theorem stringsJoin_pair (k v sep : String) :
    stringsJoin [k, v] sep = k ++ sep ++ v := rfl

theorem stringsJoin_triple (a b c sep : String) :
    stringsJoin [a, b, c] sep = a ++ sep ++ (b ++ sep ++ c) := rfl

/-- The output key built in `complete` is the plain dot-concatenation. -/
theorem outputKey_eq (j o : String) :
    stringsJoin ["workflow", j, o] "." = "workflow." ++ j ++ "." ++ o := by
  rw [stringsJoin_triple]
  rw [show ("workflow" ++ "." : String) = "workflow." from rfl]
  simp [String.append_assoc]

/-- The env-partition loop of `BuildJobExcutorContext`, characterised as a
filter-and-map on the input list. -/
theorem envFold_spec (envs : List KeyVal) (a b : List String) :
    envs.foldl
      (fun acc env =>
        if env.is_credential then
          (acc.1, acc.2 ++ [stringsJoin [env.key, env.value] "="])
        else
          (acc.1 ++ [stringsJoin [env.key, env.value] "="], acc.2))
      (a, b)
    = (a ++ ((envs.filter (fun e => !e.is_credential)).map
          (fun e => e.key ++ "=" ++ e.value)),
       b ++ ((envs.filter (fun e => e.is_credential)).map
          (fun e => e.key ++ "=" ++ e.value))) := by
  induction envs generalizing a b with
  | nil => simp
  | cons e rest ih =>
    cases hc : e.is_credential
    all_goals
      simp only [List.foldl_cons, hc, Bool.false_eq_true, if_false, if_true,
        ite_false, ite_true]
    all_goals rw [ih]
    all_goals simp [stringsJoin_pair, hc, List.append_assoc]

/-- The output-name projection loop of `BuildJobExcutorContext`. -/
theorem outputsFold_spec (l : List Output) (a : List String) :
    l.foldl (fun acc output => acc ++ [output.name]) a
      = a ++ l.map (fun o => o.name) := by
  induction l generalizing a with
  | nil => simp
  | cons o rest ih => simp [ih, List.append_assoc]

/-- `writeOutputs` with the key spelled out. -/
theorem writeOutputs_spec (j : String) (outs : List JobOutput)
    (g : List (String × String)) :
    writeOutputs j outs g
      = outs.foldl
          (fun acc o =>
            globalContextSet acc ("workflow." ++ j ++ "." ++ o.name) o.value)
          g := by
  induction outs generalizing g with
  | nil => rfl
  | cons o rest ih => simp [writeOutputs, outputKey_eq, ih]

/-! Claim theorems. -/

/-- Claim C7: `BuildJobExcutorContext` partitions the job's envs into
plaintext `envs` and credential `secret_envs`, each encoded `KEY=VALUE`,
projects exactly the declared output names, and carries the job name,
steps, workflow name, workspace, task id, and paths through unchanged. -/
theorem job_context_partition (s : JobTaskBuildSpec) (j : JobTask)
    (w : WorkflowTaskCtx) :
    (BuildJobExcutorContext s j w).envs
        = (s.properties.envs.filter (fun e => !e.is_credential)).map
            (fun e => e.key ++ "=" ++ e.value)
    ∧ (BuildJobExcutorContext s j w).secret_envs
        = (s.properties.envs.filter (fun e => e.is_credential)).map
            (fun e => e.key ++ "=" ++ e.value)
    ∧ (BuildJobExcutorContext s j w).outputs = j.outputs.map (fun o => o.name)
    ∧ (BuildJobExcutorContext s j w).name = j.name
    ∧ (BuildJobExcutorContext s j w).steps = s.steps
    ∧ (BuildJobExcutorContext s j w).workflow_name = w.workflow_name
    ∧ (BuildJobExcutorContext s j w).workspace = w.workspace
    ∧ (BuildJobExcutorContext s j w).task_id = w.task_id
    ∧ (BuildJobExcutorContext s j w).paths = s.properties.paths := by
  unfold BuildJobExcutorContext
  refine ⟨?_, ?_, ?_, rfl, rfl, rfl, rfl, rfl, rfl⟩
  · show (s.properties.envs.foldl _ (([] : List String), ([] : List String))).1 = _
    rw [envFold_spec]
    exact List.nil_append _
  · show (s.properties.envs.foldl _ (([] : List String), ([] : List String))).2 = _
    rw [envFold_spec]
    exact List.nil_append _
  · show (j.outputs.foldl _ ([] : List String)) = _
    rw [outputsFold_spec]
    exact List.nil_append _

/-- Claim C6: every output parsed from the termination message is written
into the variable context under the key
`"workflow." ++ job_name ++ "." ++ output_name`, mapped to its value. -/
theorem complete_output_keys (c : FreestyleJobCtl) (eff : Effects)
    (outs : List JobOutput) (h : eff.getJobOutput = Except.ok outs) :
    (c.complete eff).1.workflowCtx.global_context
      = outs.foldl
          (fun g o =>
            globalContextSet g ("workflow." ++ c.job.name ++ "." ++ o.name)
              o.value)
          c.workflowCtx.global_context := by
  unfold FreestyleJobCtl.complete
  rw [h]
  cases hs : eff.saveContainerLogErr with
  | some e => simp [writeOutputs_spec]
  | none =>
    cases ht : eff.summarizeStepsErr with
    | some e => simp [writeOutputs_spec]
    | none => simp [writeOutputs_spec]

/-- Claim C6 witness: the single output `VERSION: 1.2.3` of the sample job
lands under key `workflow.build.VERSION`. -/
theorem complete_output_keys_witness :
    (sampleCtl.complete effOut).1.workflowCtx.global_context
      = [out0].foldl
          (fun g o =>
            globalContextSet g
              ("workflow." ++ sampleCtl.job.name ++ "." ++ o.name) o.value)
          sampleCtl.workflowCtx.global_context :=
  complete_output_keys sampleCtl effOut [out0] rfl

/-- Claim C3 counterexample: on a concrete run of `complete` where shipping
container logs fails, `SummarizeSteps` is not invoked afterwards (the job's
status is indeed unchanged, but the phase returns early), refuting the claim
that per-step summarization still runs. -/
theorem complete_logfail_skips_summarize_cex :
    effLogFail.saveContainerLogErr = some "ship logs failed"
    ∧ (sampleCtl.complete effLogFail).2.summarizeStepsCalled = false
    ∧ (sampleCtl.complete effLogFail).1.job.status = sampleCtl.job.status := by
  exact ⟨rfl, rfl, rfl⟩

/-- Claim C3 amended: a failure while shipping container logs records the
error on the job and returns from `complete` early — `SummarizeSteps` is
skipped; the job's terminal status is unchanged, and the deferred resource
cleanup is still scheduled. -/
theorem complete_logfail_behavior (c : FreestyleJobCtl) (eff : Effects)
    (e : String) (h : eff.saveContainerLogErr = some e) :
    (c.complete eff).2.summarizeStepsCalled = false
    ∧ (c.complete eff).1.job.status = c.job.status
    ∧ (c.complete eff).1.job.error = e
    ∧ (c.complete eff).2.cleanupScheduled = true := by
  unfold FreestyleJobCtl.complete
  cases hg : eff.getJobOutput <;> simp [h]

/-- Claim C3 amended, witness at a concrete failing log-ship. -/
theorem complete_logfail_behavior_witness :
    (sampleCtl.complete effLogFail).2.summarizeStepsCalled = false
    ∧ (sampleCtl.complete effLogFail).1.job.status = sampleCtl.job.status
    ∧ (sampleCtl.complete effLogFail).1.job.error = "ship logs failed"
    ∧ (sampleCtl.complete effLogFail).2.cleanupScheduled = true :=
  complete_logfail_behavior sampleCtl effLogFail "ship logs failed" rfl

/-- Claim C1 counterexample: a concrete freestyle execution whose `prepare`
phase errors; `Run` returns immediately and the `complete` phase (with its
cleanup branch) never executes, refuting the claim that `complete` runs even
when an earlier phase terminated the job. -/
theorem run_skips_complete_on_prepare_error_cex :
    (sampleCtl.prepare effPrepFail).2 = some "prepare steps failed"
    ∧ (sampleCtl.Run effPrepFail).1.job.status = Status.failed
    ∧ (sampleCtl.Run effPrepFail).2 = [Phase.prepare]
    ∧ Phase.complete ∉ (sampleCtl.Run effPrepFail).2 := by
  refine ⟨rfl, rfl, rfl, ?_⟩
  decide

/-- Claim C1 amended: `Run` is fail-fast — `complete` executes exactly when
both `prepare` and `run` return no error; the first error in `prepare` or
`run` terminates the execution with every later phase (including
`complete`) skipped. -/
theorem run_complete_iff (c : FreestyleJobCtl) (eff : Effects) :
    Phase.complete ∈ (c.Run eff).2
      ↔ ((c.prepare eff).2 = none ∧ ((c.prepare eff).1.run eff).2 = none) := by
  unfold FreestyleJobCtl.Run
  rcases hp : c.prepare eff with ⟨c1, e1⟩
  cases e1 with
  | some m => simp [hp]
  | none =>
    rcases hr : c1.run eff with ⟨c2, e2⟩
    cases e2 with
    | some m => simp [hp, hr]
    | none => simp [hp, hr]

/-- Claim C2: at a local-cluster execution whose selected docker host
already contains the process namespace, the `run` phase assigns the empty
string to `Properties.DockerHost` (the `dockerHost` variable keeps its zero
value on that branch) instead of leaving the host unchanged. -/
theorem dockerhost_local_cleared :
    rewriteDockerHost LocalClusterID "zadig" "tcp://dind-0.dind.zadig:2375" = ""
    ∧ ("tcp://dind-0.dind.zadig:2375" : String) ≠ ""
    ∧ goContains "tcp://dind-0.dind.zadig:2375" "zadig" = true
    ∧ (sampleCtlLocal.runAfterClients effHostContainsNs).1.jobTaskSpec.properties.docker_host = "" := by
  refine ⟨by decide, by decide, by decide, by decide⟩

/-- On success, the aux body persists a task whose `origin_workflow_args`
is the workflow document captured before marker removal and rendering, with
the freshly assigned task id. -/
theorem createAux_origin (eff : MatEffects) (user : String) (w : WorkflowV4)
    (r : CreateTaskV4Resp) (t : WorkflowTask)
    (h : createWorkflowTaskV4Aux eff user w = Except.ok (r, t)) :
    t.origin_workflow_args = some w ∧ t.task_id = r.task_id := by
  unfold createWorkflowTaskV4Aux at h
  dsimp only at h
  split at h
  · exact Except.noConfusion h
  split at h
  · exact Except.noConfusion h
  split at h
  · exact Except.noConfusion h
  split at h
  · exact Except.noConfusion h
  split at h
  · exact Except.noConfusion h
  split at h
  · exact Except.noConfusion h
  split at h
  · exact Except.noConfusion h
  split at h
  · exact Except.noConfusion h
  injection h with h1
  injection h1 with h2 h3
  subst h2
  subst h3
  exact ⟨rfl, rfl⟩

/-- Claim C4: a successful `CreateWorkflowTaskV4` persists exactly one new
task whose `origin_workflow_args` is the workflow document captured before
fixed-value-marker removal and global-variable rendering (the later
materialization steps never touch it), and — provided the task id is fresh
in the store — `CloneWorkflowTaskV4` on the workflow name and new task id
returns exactly that captured document. -/
theorem origin_args_immutable (eff : MatEffects) (user : String)
    (w : WorkflowV4) (store : Store) (resp : CreateTaskV4Resp)
    (hok : (CreateWorkflowTaskV4 eff user w store).1 = Except.ok resp) :
    (CreateWorkflowTaskV4 eff user w store).2.tasks
        = store.tasks ++ [persistedTask eff user w]
    ∧ (persistedTask eff user w).origin_workflow_args = some w
    ∧ (persistedTask eff user w).task_id = resp.task_id
    ∧ (findTask store (persistedTask eff user w).workflow_name
          (persistedTask eff user w).task_id = none →
        CloneWorkflowTaskV4 (CreateWorkflowTaskV4 eff user w store).2
          (persistedTask eff user w).workflow_name
          (persistedTask eff user w).task_id = Except.ok (some w)) := by
  unfold CreateWorkflowTaskV4 at hok ⊢
  unfold persistedTask
  cases haux : createWorkflowTaskV4Aux eff user w with
  | error e =>
    rw [haux] at hok
    exact Except.noConfusion hok
  | ok pr =>
    obtain ⟨r, t⟩ := pr
    rw [haux] at hok
    injection hok with hre
    subst hre
    obtain ⟨ho, hid⟩ := createAux_origin eff user w r t haux
    refine ⟨rfl, ho, hid, ?_⟩
    intro hfind
    unfold CloneWorkflowTaskV4 findTask
    unfold findTask at hfind
    rw [List.find?_append, hfind]
    have hpt : (fun tk : WorkflowTask =>
        tk.workflow_name == t.workflow_name && tk.task_id == t.task_id) t
          = true := by
      simp
    simp only [List.find?_cons, hpt, Option.none_or, List.find?_nil]
    rw [ho]

/-- Claim C4 witness: a concrete successful materialization of `wf0`,
whose clone returns the pre-render document bit-identically. -/
theorem origin_args_immutable_witness :
    (CreateWorkflowTaskV4 matEff0 "alice" wf0 store0).2.tasks
        = store0.tasks ++ [persistedTask matEff0 "alice" wf0]
    ∧ (persistedTask matEff0 "alice" wf0).origin_workflow_args = some wf0
    ∧ CloneWorkflowTaskV4 (CreateWorkflowTaskV4 matEff0 "alice" wf0 store0).2
        (persistedTask matEff0 "alice" wf0).workflow_name
        (persistedTask matEff0 "alice" wf0).task_id = Except.ok (some wf0) := by
  have h := origin_args_immutable matEff0 "alice" wf0 store0 resp0 rfl
  exact ⟨h.1, h.2.1, h.2.2.2 rfl⟩

/-- Claim C5: the task conversion ignores `Skipped` definition jobs (the
loop behaves as if they were filtered out), never emits a stage with an
empty job list, and `workflowTaskLint` accepts a task exactly when it has at
least one stage and every stage has at least one job — rejecting with
`ErrCreateTask` otherwise. -/
theorem conversion_skip_drop_lint :
    (∀ (eff : MatEffects) (w : WorkflowV4) (id : Int) (js : List Job),
        convertStageJobs eff w id js
          = convertStageJobs eff w id (js.filter (fun j => !j.skipped)))
    ∧ (∀ (eff : MatEffects) (w : WorkflowV4) (id : Int)
        (ss : List WorkflowStage) (sts : List StageTask),
        convertStages eff w id ss = Except.ok sts →
          ∀ st ∈ sts, st.jobs ≠ [])
    ∧ (∀ t : WorkflowTask,
        (workflowTaskLint t = none ↔
          (t.stages ≠ [] ∧ ∀ s ∈ t.stages, s.jobs ≠ []))
        ∧ (∀ er, workflowTaskLint t = some er →
            ∃ d, er = ZadigErr.errCreateTask d)) := by
  refine ⟨?_, ?_, ?_⟩
  · intro eff w id js
    induction js with
    | nil => rfl
    | cons j rest ih =>
      cases hsk : j.skipped <;> simp [convertStageJobs, hsk, ih]
  · intro eff w id ss
    induction ss with
    | nil =>
      intro sts h st hst
      injection h with h1
      subst h1
      simp at hst
    | cons stage rest ih =>
      intro sts h st hst
      unfold convertStages at h
      split at h
      · exact Except.noConfusion h
      split at h
      · exact Except.noConfusion h
      next restStages hr =>
        dsimp only at h
        split at h
        next hlen =>
          injection h with h1
          subst h1
          rcases List.mem_cons.mp hst with hhd | htl
          · subst hhd
            exact List.ne_nil_of_length_pos hlen
          · exact ih restStages hr st htl
        next =>
          injection h with h1
          subst h1
          exact ih restStages hr st hst
  · intro t
    constructor
    · unfold workflowTaskLint
      by_cases hlen : t.stages.length ≤ 0
      · rw [if_pos hlen]
        simp only [reduceCtorEq, false_iff, not_and]
        intro hne
        exact absurd (List.eq_nil_of_length_eq_zero (Nat.le_zero.mp hlen)) hne
      · rw [if_neg hlen]
        cases hf : t.stages.find? (fun s => decide (s.jobs.length ≤ 0)) with
        | some s =>
          simp only [reduceCtorEq, false_iff, not_and]
          intro _
          have hs : s.jobs.length ≤ 0 := by
            simpa using List.find?_some hf
          have hmem := List.mem_of_find?_eq_some hf
          intro hall
          exact absurd (List.eq_nil_of_length_eq_zero (Nat.le_zero.mp hs))
            (hall s hmem)
        | none =>
          simp only [true_iff]
          constructor
          · intro hcontra
            rw [hcontra] at hlen
            simp at hlen
          · intro s hmem hnil
            have := List.find?_eq_none.mp hf s hmem
            rw [hnil] at this
            simp at this
    · intro er her
      unfold workflowTaskLint at her
      split at her
      · injection her with h1
        exact ⟨_, h1.symm⟩
      · split at her
        · injection her with h1
          exact ⟨_, h1.symm⟩
        · exact Option.noConfusion her

/-- Claim C5 witness: a concrete skipped job contributes nothing, the
concrete conversion of `wf0` yields only nonempty stages, and the lint of
the resulting task accepts it. -/
theorem conversion_skip_drop_lint_witness :
    convertStageJobs matEff0 wf0 7 [skippedJob]
        = convertStageJobs matEff0 wf0 7
            ([skippedJob].filter (fun j => !j.skipped))
    ∧ (∀ st ∈ [stageTask0], st.jobs ≠ [])
    ∧ (workflowTaskLint task0 = none ↔
        (task0.stages ≠ [] ∧ ∀ s ∈ task0.stages, s.jobs ≠ [])) :=
  ⟨conversion_skip_drop_lint.1 matEff0 wf0 7 [skippedJob],
   conversion_skip_drop_lint.2.1 matEff0 wf0 7 [stage0] [stageTask0] rfl,
   (conversion_skip_drop_lint.2.2 task0).1⟩

/-- Claim C8: a counter failure makes `CreateWorkflowTaskV4` return
`ErrGetCounter` with the underlying description; a stage-conversion failure
(type-specific preparation or `ToJobs`) makes it return `ErrCreateTask`
with the description; and on every error return the store is untouched —
the function returns before the task is persisted. -/
theorem create_task_error_paths :
    (∀ (eff : MatEffects) (user : String) (w : WorkflowV4) (store : Store)
       (msg : String),
        eff.lintWorkflow = none → eff.itoiErr = none →
        eff.getNextSeq = Except.error msg →
        CreateWorkflowTaskV4 eff user w store
          = (Except.error (ZadigErr.errGetCounter msg), store))
    ∧ (∀ (eff : MatEffects) (user : String) (w : WorkflowV4) (store : Store)
         (n : Int) (w1 w2 : WorkflowV4) (msg : String),
        eff.lintWorkflow = none → eff.itoiErr = none →
        eff.getNextSeq = Except.ok n →
        eff.removeFixedValueMarks w = Except.ok w1 →
        eff.renderGlobalVariables w1 n user = Except.ok w2 →
        convertStages eff w2 n w2.stages = Except.error msg →
        CreateWorkflowTaskV4 eff user w store
          = (Except.error (ZadigErr.errCreateTask msg), store))
    ∧ (∀ (eff : MatEffects) (user : String) (w : WorkflowV4) (store : Store)
         (er : ZadigErr),
        (CreateWorkflowTaskV4 eff user w store).1 = Except.error er →
        (CreateWorkflowTaskV4 eff user w store).2 = store) := by
  refine ⟨?_, ?_, ?_⟩
  · intro eff user w store msg h1 h2 h3
    simp [CreateWorkflowTaskV4, createWorkflowTaskV4Aux, h1, h2, h3]
  · intro eff user w store n w1 w2 msg h1 h2 h3 h4 h5 h6
    simp [CreateWorkflowTaskV4, createWorkflowTaskV4Aux, h1, h2, h3, h4, h5,
      h6]
  · intro eff user w store er h
    unfold CreateWorkflowTaskV4 at h ⊢
    cases haux : createWorkflowTaskV4Aux eff user w with
    | error e => rfl
    | ok pr =>
      rw [haux] at h
      obtain ⟨r, t⟩ := pr
      exact Except.noConfusion h

/-- Claim C8 witness: concrete materializations hitting the counter failure
and the `ToJobs` failure, each leaving the empty store unchanged. -/
theorem create_task_error_paths_witness :
    CreateWorkflowTaskV4 matEffCounterFail "alice" wf0 store0
      = (Except.error (ZadigErr.errGetCounter "counter unavailable"), store0)
    ∧ CreateWorkflowTaskV4 matEffToJobsFail "alice" wf0 store0
      = (Except.error (ZadigErr.errCreateTask "bad job spec"), store0) :=
  ⟨create_task_error_paths.1 matEffCounterFail "alice" wf0 store0
      "counter unavailable" rfl rfl rfl,
   create_task_error_paths.2.1 matEffToJobsFail "alice" wf0 store0 7 wf0 wf0
      "bad job spec" rfl rfl rfl rfl rfl rfl⟩

/-- Claim C9: `ApproveStage` rejects an empty workflow name, an empty stage
name, or task id 0 with `ErrApproveTask` and never invokes the workflow
controller in that case; otherwise the controller is invoked, its success is
passed through, and its error is wrapped in `ErrApproveTask`. -/
theorem approve_stage_validation (ce : Option String)
    (wn sn un uid cm : String) (tid : Int) (ap : Bool) :
    ((wn = "" ∨ sn = "" ∨ tid = 0) →
      (ApproveStage ce wn sn un uid cm tid ap).2 = false
      ∧ (ApproveStage ce wn sn un uid cm tid ap).1
          = Except.error (ZadigErr.errApproveTask
              ("can not find approved workflow: " ++ wn ++ ", taskID: " ++
                toString tid ++ ",stage: " ++ sn)))
    ∧ (wn ≠ "" → sn ≠ "" → tid ≠ 0 →
        (ApproveStage ce wn sn un uid cm tid ap).2 = true
        ∧ (ce = none →
            (ApproveStage ce wn sn un uid cm tid ap).1 = Except.ok ())
        ∧ (∀ e, ce = some e →
            (ApproveStage ce wn sn un uid cm tid ap).1
              = Except.error (ZadigErr.errApproveTask e))) := by
  constructor
  · intro h
    unfold ApproveStage
    rw [if_pos h]
    exact ⟨rfl, rfl⟩
  · intro h1 h2 h3
    unfold ApproveStage
    rw [if_neg (by simp [h1, h2, h3])]
    cases hce : ce with
    | none => exact ⟨rfl, fun _ => rfl, fun e he => Option.noConfusion he⟩
    | some e =>
      refine ⟨rfl, fun hc => Option.noConfusion hc, ?_⟩
      intro e2 he
      injection he with he2
      subst he2
      rfl

/-- Claim C9 witness: concrete calls on an empty workflow name (rejected
without touching the controller) and on valid arguments (delegated and
successful). -/
theorem approve_stage_validation_witness :
    ((ApproveStage none "" "stage1" "alice" "id1" "lgtm" 3 true).2 = false
      ∧ (ApproveStage none "" "stage1" "alice" "id1" "lgtm" 3 true).1
          = Except.error (ZadigErr.errApproveTask
              ("can not find approved workflow: " ++ "" ++ ", taskID: " ++
                toString (3 : Int) ++ ",stage: " ++ "stage1")))
    ∧ ((ApproveStage none "wf" "stage1" "alice" "id1" "lgtm" 3 true).2 = true
        ∧ (ApproveStage none "wf" "stage1" "alice" "id1" "lgtm" 3 true).1
            = Except.ok ()) :=
  ⟨approve_stage_validation none "" "stage1" "alice" "id1" "lgtm" 3 true
      |>.1 (Or.inl rfl),
   ⟨(approve_stage_validation none "wf" "stage1" "alice" "id1" "lgtm" 3 true
      |>.2 (by decide) (by decide) (by decide)).1,
    (approve_stage_validation none "wf" "stage1" "alice" "id1" "lgtm" 3 true
      |>.2 (by decide) (by decide) (by decide)).2.1 rfl⟩⟩

/-- Claim C10: whenever the cache list succeeds — whatever items it
returns — `ListIngressesFormat` returns the empty ingress list, because the
result is built from the typed `IngressList` that the list call never
populated. -/
theorem list_ingresses_format_empty
    (lrc : String → GroupVersionKind → Except String (List Ingress))
    (ns : String) (lessThan122 : Bool) (items : List Ingress)
    (h : lrc ns (if !lessThan122 then networkingV1IngressGVK
        else extensionsV1beta1IngressGVK) = Except.ok items) :
    ListIngressesFormat lrc ns lessThan122 = Except.ok [] := by
  unfold ListIngressesFormat
  dsimp only
  rw [h]
  rfl

/-- Claim C10 witness: a cache holding one ingress still yields the empty
formatted list. -/
theorem list_ingresses_format_empty_witness :
    ListIngressesFormat listOneIngress "ns1" true = Except.ok [] :=
  list_ingresses_format_empty listOneIngress "ns1" true [{ name := "ing1" }]
    rfl

end Zadig
